import Mathlib

/-!
Shallow embedding of the client-side authentication session manager of the
surveystaff repository (React UI): `src/ui/src/contexts/AuthContext.js`,
`src/ui/src/api/config.js`, `src/ui/src/api/authService.js` and
`src/ui/src/components/auth/PrivateRoute.js`.

Modelling conventions:
- a thrown JS error carrying message `m` is `Except.error m`;
- a resolved promise carrying a parsed JSON body is `Except.ok body`;
- `localStorage` holds the single slot keyed `supabase_auth_token`,
  modelled as an `Option String` field of the client state;
- the backend is external: gateway outcomes are universally quantified
  (a function from the token, or a single outcome value, per call site);
- JS truthiness of strings (`a || b`, `session?.access_token`) is modelled
  explicitly: `none` and the empty string are falsy.
-/

namespace SurveyStaff

/-- The authenticated principal's profile, opaque beyond identity. -/
structure User where
  id : String
deriving DecidableEq, Repr

/-- A backend session value; `access_token` mirrors `session.access_token`
(absent or empty string are both falsy in the JS source). -/
structure Session where
  access_token : Option String
  payload : String
deriving DecidableEq, Repr

/-- Parsed JSON body of a backend auth response: at least `success`, and
optionally `user`, `session`, `error` fields. -/
structure RespBody where
  success : Bool
  user : Option User
  session : Option Session
  error : Option String
deriving DecidableEq, Repr

/-- Outcome of an auth-service call: `.error m` models a thrown JS error with
message `m`, `.ok body` a resolved call with parsed body. -/
abbrev SvcResult := Except String RespBody

/-- JS `a || b` on an optional string field: `undefined` and `""` are falsy. -/
def jsOr (a : Option String) (b : String) : String :=
  match a with
  | none => b
  | some s => if s = "" then b else s

/-- The observable AuthState of `AuthProvider`:
`{ user, session, loading, error }`. -/
structure AuthState where
  user : Option User
  session : Option Session
  loading : Bool
  error : Option String
deriving DecidableEq, Repr

/-- AuthState plus the persisted token slot
(`localStorage['supabase_auth_token']`). -/
structure ClientState where
  auth : AuthState
  token : Option String
deriving DecidableEq, Repr

/-- The initial React state of `AuthProvider`:
`user = null, session = null, loading = true, error = null`. -/
def initialAuth : AuthState :=
  { user := none, session := none, loading := true, error := none }

/-! ## `src/ui/src/api/config.js` and `authService.js` -/

/-- A fetch `Response` as `handleResponse` consumes it: `ok` (2xx), the
status text, and the outcome of `response.json()` (which can itself throw). -/
structure HttpResponse where
  ok : Bool
  statusText : String
  jsonBody : Except String RespBody

/-- `handleResponse` from `config.js`: parse JSON, return the body when
`response.ok`, otherwise throw `new Error(data.error || response.statusText)`. -/
def handleResponse (r : HttpResponse) : SvcResult :=
  match r.jsonBody with
  | .error e => .error e
  | .ok data =>
      if r.ok then .ok data
      else .error (jsOr data.error r.statusText)

/-- Any `authService` operation as a function of its fetch outcome: a network
rejection is re-thrown (the service's catch only logs and re-throws), a
response goes through `handleResponse`. All seven operations share this shape. -/
def authServiceCall (fetchOutcome : Except String HttpResponse) : SvcResult :=
  match fetchOutcome with
  | .error e => .error e
  | .ok r => handleResponse r

/-! ## `src/ui/src/contexts/AuthContext.js` -/

/-- Gateway outcomes available to the bootstrap `checkSession`:
`verifySession` and `getCurrentUser`, each a function of the token. -/
structure BootEnv where
  verify : String → SvcResult
  getUser : String → SvcResult

/-- `checkSession` from `AuthContext.js` (the bootstrap effect), as a pure
transformer of the client state given the gateway outcomes. Mirrors the
try/catch/finally structure: the catch records the error and purges
everything, the `success:false` branch purges without recording an error,
and the finally always resolves `loading`. -/
def checkSession (env : BootEnv) (s : ClientState) : ClientState :=
  let s1 : ClientState := { s with auth := { s.auth with loading := true } }
  let s2 : ClientState :=
    match s1.token with
    | none => s1
    | some tok =>
        match env.verify tok with
        | .error msg =>
            { s1 with
              auth := { s1.auth with error := some msg, session := none, user := none },
              token := none }
        | .ok resp =>
            if resp.success then
              let sv : ClientState :=
                { s1 with auth := { s1.auth with session := resp.session } }
              match env.getUser tok with
              | .error msg =>
                  { sv with
                    auth := { sv.auth with error := some msg, session := none, user := none },
                    token := none }
              | .ok uresp =>
                  if uresp.success then
                    { sv with auth := { sv.auth with user := uresp.user } }
                  else sv
            else
              { s1 with
                auth := { s1.auth with session := none, user := none },
                token := none }
  { s2 with auth := { s2.auth with loading := false } }

/-- The shared entry phase of every public action:
`setLoading(true); setError(null);`. -/
def actionBegin (s : ClientState) : ClientState :=
  { s with auth := { s.auth with loading := true, error := none } }

/-- `localStorage.setItem` guarded by `if (response.session?.access_token)`:
the token is stored only when the session is present and its access token is
truthy (non-empty). -/
def storeSessionToken (sess : Option Session) (tok : Option String) : Option String :=
  match sess with
  | none => tok
  | some s =>
      match s.access_token with
      | none => tok
      | some t => if t = "" then tok else some t

/-- Body of `signUp` after the entry phase: on `success` set user/session and
conditionally persist the token, returning the response; otherwise throw
`new Error(response.error || 'Sign up failed')`, which the catch records in
`error` before re-throwing; finally resolves `loading`. -/
def signUpBody (o : SvcResult) (s : ClientState) : ClientState × SvcResult :=
  match o with
  | .ok resp =>
      if resp.success then
        let s1 : ClientState :=
          { s with
            auth := { s.auth with user := resp.user, session := resp.session },
            token := storeSessionToken resp.session s.token }
        ({ s1 with auth := { s1.auth with loading := false } }, .ok resp)
      else
        let msg := jsOr resp.error "Sign up failed"
        ({ s with auth := { s.auth with error := some msg, loading := false } },
         .error msg)
  | .error msg =>
      ({ s with auth := { s.auth with error := some msg, loading := false } },
       .error msg)

/-- `signUp(email, password, metadata)` from `AuthContext.js`, as a function
of the gateway outcome `o`. -/
def signUp (o : SvcResult) (s : ClientState) : ClientState × SvcResult :=
  signUpBody o (actionBegin s)

/-- Body of `signIn` after the entry phase; identical control flow to
`signUpBody` except for the default error message. -/
def signInBody (o : SvcResult) (s : ClientState) : ClientState × SvcResult :=
  match o with
  | .ok resp =>
      if resp.success then
        let s1 : ClientState :=
          { s with
            auth := { s.auth with user := resp.user, session := resp.session },
            token := storeSessionToken resp.session s.token }
        ({ s1 with auth := { s1.auth with loading := false } }, .ok resp)
      else
        let msg := jsOr resp.error "Sign in failed"
        ({ s with auth := { s.auth with error := some msg, loading := false } },
         .error msg)
  | .error msg =>
      ({ s with auth := { s.auth with error := some msg, loading := false } },
       .error msg)

/-- `signIn(email, password)` from `AuthContext.js`. -/
def signIn (o : SvcResult) (s : ClientState) : ClientState × SvcResult :=
  signInBody o (actionBegin s)

/-- The JS literal `{ success: true }` that `signOut` returns. -/
def successTrueBody : RespBody :=
  { success := true, user := none, session := none, error := none }

/-- Body of `signOut` after the entry phase: read the token; when present,
await the gateway (its resolved value is ignored). On resolve (or no token)
clear the slot and identity and return `{success: true}`; on throw the catch
records the error, still clears the slot and identity, and re-throws;
finally resolves `loading`. -/
def signOutBody (f : String → SvcResult) (s : ClientState) : ClientState × SvcResult :=
  match s.token with
  | none =>
      let s1 : ClientState :=
        { auth := { s.auth with user := none, session := none, loading := false },
          token := none }
      (s1, .ok successTrueBody)
  | some tok =>
      match f tok with
      | .ok _ =>
          let s1 : ClientState :=
            { auth := { s.auth with user := none, session := none, loading := false },
              token := none }
          (s1, .ok successTrueBody)
      | .error msg =>
          let s1 : ClientState :=
            { auth := { s.auth with error := some msg, user := none, session := none, loading := false },
              token := none }
          (s1, .error msg)

/-- `signOut()` from `AuthContext.js`, as a function of the gateway outcome
(a function of the persisted token). -/
def signOut (f : String → SvcResult) (s : ClientState) : ClientState × SvcResult :=
  signOutBody f (actionBegin s)

/-- Body of `resetPassword` after the entry phase: pure passthrough; a thrown
error is recorded in `error` and re-thrown; finally resolves `loading`. -/
def resetPasswordBody (o : SvcResult) (s : ClientState) : ClientState × SvcResult :=
  match o with
  | .ok resp =>
      ({ s with auth := { s.auth with loading := false } }, .ok resp)
  | .error msg =>
      ({ s with auth := { s.auth with error := some msg, loading := false } },
       .error msg)

/-- `resetPassword(email)` from `AuthContext.js`. -/
def resetPassword (o : SvcResult) (s : ClientState) : ClientState × SvcResult :=
  resetPasswordBody o (actionBegin s)

/-- Body of `updatePassword` after the entry phase: with no persisted token,
`throw new Error('Not authenticated')` — caught, recorded, re-thrown, no
gateway call; with a token, passthrough of the gateway outcome. -/
def updatePasswordBody (f : String → SvcResult) (s : ClientState) :
    ClientState × SvcResult :=
  match s.token with
  | none =>
      ({ s with
         auth := { s.auth with error := some "Not authenticated", loading := false } },
       .error "Not authenticated")
  | some tok =>
      match f tok with
      | .ok resp =>
          ({ s with auth := { s.auth with loading := false } }, .ok resp)
      | .error msg =>
          ({ s with auth := { s.auth with error := some msg, loading := false } },
           .error msg)

/-- `updatePassword(newPassword)` from `AuthContext.js`, as a function of the
gateway outcome (a function of the persisted token). -/
def updatePassword (f : String → SvcResult) (s : ClientState) :
    ClientState × SvcResult :=
  updatePasswordBody f (actionBegin s)

/-- Body of `updateProfile` after the entry phase: same precondition rule as
`updatePassword`; on gateway `success` replaces `user` with `response.user`. -/
def updateProfileBody (f : String → SvcResult) (s : ClientState) :
    ClientState × SvcResult :=
  match s.token with
  | none =>
      ({ s with
         auth := { s.auth with error := some "Not authenticated", loading := false } },
       .error "Not authenticated")
  | some tok =>
      match f tok with
      | .ok resp =>
          let s1 : ClientState :=
            if resp.success then { s with auth := { s.auth with user := resp.user } }
            else s
          ({ s1 with auth := { s1.auth with loading := false } }, .ok resp)
      | .error msg =>
          ({ s with auth := { s.auth with error := some msg, loading := false } },
           .error msg)

/-- `updateProfile(userData)` from `AuthContext.js`. -/
def updateProfile (f : String → SvcResult) (s : ClientState) :
    ClientState × SvcResult :=
  updateProfileBody f (actionBegin s)

/-! ## `src/ui/src/components/auth/PrivateRoute.js` -/

/-- What `PrivateRoute` renders. -/
inductive RouteRender where
  | pending
  | outlet
  | redirectToLogin
deriving DecidableEq, Repr

/-- `PrivateRoute` from `PrivateRoute.js`: spinner while `loading`, then
`<Outlet/>` when `user` is truthy, else `<Navigate to="/login"/>`. -/
def PrivateRoute (st : AuthState) : RouteRender :=
  if st.loading then .pending
  else
    match st.user with
    | some _ => .outlet
    | none => .redirectToLogin

/-! ## Reachable states of the session manager

`AuthProvider` mounts with `initialAuth` and whatever token the storage slot
holds, runs `checkSession` once, and thereafter mutates state only through
the six public actions, each driven by an arbitrary gateway outcome. -/

/-- One public action applied to the client state, with an arbitrary gateway
outcome. -/
inductive Step : ClientState → ClientState → Prop where
  | signUpStep (o : SvcResult) (s : ClientState) : Step s (signUp o s).1
  | signInStep (o : SvcResult) (s : ClientState) : Step s (signIn o s).1
  | signOutStep (f : String → SvcResult) (s : ClientState) : Step s (signOut f s).1
  | resetPasswordStep (o : SvcResult) (s : ClientState) : Step s (resetPassword o s).1
  | updatePasswordStep (f : String → SvcResult) (s : ClientState) :
      Step s (updatePassword f s).1
  | updateProfileStep (f : String → SvcResult) (s : ClientState) :
      Step s (updateProfile f s).1

/-- States reachable through bootstrap followed by public actions. -/
inductive Reachable : ClientState → Prop where
  | boot (env : BootEnv) (tok : Option String) :
      Reachable (checkSession env { auth := initialAuth, token := tok })
  | step {s t : ClientState} : Reachable s → Step s t → Reachable t

/-- A gateway outcome whose successful sign-up/sign-in responses carry a
session with a truthy (non-empty) `access_token`. -/
def tokenBearing (o : SvcResult) : Prop :=
  ∀ resp : RespBody, o = .ok resp → resp.success = true →
    ∃ (sess : Session) (tk : String),
      resp.session = some sess ∧ sess.access_token = some tk ∧ tk ≠ ""

/-- `Step` restricted to token-bearing sign-up/sign-in outcomes. -/
inductive GoodStep : ClientState → ClientState → Prop where
  | signUpStep (o : SvcResult) (s : ClientState) (h : tokenBearing o) :
      GoodStep s (signUp o s).1
  | signInStep (o : SvcResult) (s : ClientState) (h : tokenBearing o) :
      GoodStep s (signIn o s).1
  | signOutStep (f : String → SvcResult) (s : ClientState) : GoodStep s (signOut f s).1
  | resetPasswordStep (o : SvcResult) (s : ClientState) : GoodStep s (resetPassword o s).1
  | updatePasswordStep (f : String → SvcResult) (s : ClientState) :
      GoodStep s (updatePassword f s).1
  | updateProfileStep (f : String → SvcResult) (s : ClientState) :
      GoodStep s (updateProfile f s).1

/-- `Reachable` restricted to token-bearing sign-up/sign-in outcomes. -/
inductive GoodReachable : ClientState → Prop where
  | boot (env : BootEnv) (tok : Option String) :
      GoodReachable (checkSession env { auth := initialAuth, token := tok })
  | step {s t : ClientState} : GoodReachable s → GoodStep s t → GoodReachable t

/-! ## Concrete fixtures used by counterexamples and witnesses -/

/-- A resolved backend failure body with no `error` field. -/
def failResp : RespBody :=
  { success := false, user := none, session := none, error := none }

/-- A bootstrap environment in which both gateway calls resolve with
`success: false`. -/
def envFail : BootEnv :=
  { verify := fun _ => .ok failResp, getUser := fun _ => .ok failResp }

/-- A session fixture carrying the token `"tok-1"`. -/
def sess1 : Session := { access_token := some "tok-1", payload := "s1" }

/-- A successful verify response carrying `sess1`. -/
def verifyOk : RespBody :=
  { success := true, user := none, session := some sess1, error := none }

/-- A bootstrap environment: verify succeeds, user fetch resolves with
`success: false`. -/
def envDegraded : BootEnv :=
  { verify := fun _ => .ok verifyOk, getUser := fun _ => .ok failResp }

/-- A successful sign-in response that carries a user but no session (hence
no token to persist). -/
def signInNoSess : RespBody :=
  { success := true, user := some { id := "u1" }, session := none, error := none }

/-- A successful sign-in response carrying both a user and `sess1`. -/
def signInOk : RespBody :=
  { success := true, user := some { id := "u1" }, session := some sess1, error := none }

/-- A settled anonymous client state with a stale persisted token. -/
def staleTokState : ClientState :=
  { auth := { user := none, session := none, loading := false, error := none },
    token := some "t" }

/-- A non-2xx HTTP response whose JSON body reports an ordinary backend
failure. -/
def badHttp : HttpResponse :=
  { ok := false, statusText := "Unauthorized",
    jsonBody := .ok { success := false, user := none, session := none,
                      error := some "Invalid login credentials" } }

/-! ## Claim theorems -/

/-- C4: for every outcome of the remote sign-out call (resolved success,
resolved backend failure, or thrown transport error) and every starting
state, `signOut()` ends with the persisted token cleared and `user` and
`session` null: local cleanup always occurs. -/
theorem C4_signOut_local_cleanup (f : String → SvcResult) (s : ClientState) :
    (signOut f s).1.token = none ∧ (signOut f s).1.auth.user = none ∧
      (signOut f s).1.auth.session = none := by
  rcases s with ⟨⟨u, se, l, e⟩, tk⟩
  cases tk with
  | none => simp [signOut, signOutBody, actionBegin]
  | some t =>
      rcases h : f t with msg | resp <;>
        simp [signOut, signOutBody, actionBegin, h]

/-- C5: every public action routes through the shared entry phase that sets
`loading := true` and clears any stale `error`, and on every exit path —
resolved success, resolved backend failure, or thrown error — `loading` is
back to `false` in the final state. -/
theorem C5_loading_protocol (o : SvcResult) (f : String → SvcResult) (s : ClientState) :
    ((actionBegin s).auth.loading = true ∧ (actionBegin s).auth.error = none)
    ∧ signUp o s = signUpBody o (actionBegin s)
    ∧ signIn o s = signInBody o (actionBegin s)
    ∧ signOut f s = signOutBody f (actionBegin s)
    ∧ resetPassword o s = resetPasswordBody o (actionBegin s)
    ∧ updatePassword f s = updatePasswordBody f (actionBegin s)
    ∧ updateProfile f s = updateProfileBody f (actionBegin s)
    ∧ (signUp o s).1.auth.loading = false
    ∧ (signIn o s).1.auth.loading = false
    ∧ (signOut f s).1.auth.loading = false
    ∧ (resetPassword o s).1.auth.loading = false
    ∧ (updatePassword f s).1.auth.loading = false
    ∧ (updateProfile f s).1.auth.loading = false := by
  refine ⟨⟨rfl, rfl⟩, rfl, rfl, rfl, rfl, rfl, rfl, ?_, ?_, ?_, ?_, ?_, ?_⟩
  · rcases o with msg | resp
    · simp [signUp, signUpBody, actionBegin]
    · simp only [signUp, signUpBody, actionBegin]
      split <;> simp
  · rcases o with msg | resp
    · simp [signIn, signInBody, actionBegin]
    · simp only [signIn, signInBody, actionBegin]
      split <;> simp
  · rcases s with ⟨⟨u, se, l, e⟩, tk⟩
    cases tk with
    | none => simp [signOut, signOutBody, actionBegin]
    | some t =>
        rcases h : f t with msg | resp <;>
          simp [signOut, signOutBody, actionBegin, h]
  · rcases o with msg | resp <;> simp [resetPassword, resetPasswordBody, actionBegin]
  · rcases s with ⟨⟨u, se, l, e⟩, tk⟩
    cases tk with
    | none => simp [updatePassword, updatePasswordBody, actionBegin]
    | some t =>
        rcases h : f t with msg | resp <;>
          simp [updatePassword, updatePasswordBody, actionBegin, h]
  · rcases s with ⟨⟨u, se, l, e⟩, tk⟩
    cases tk with
    | none => simp [updateProfile, updateProfileBody, actionBegin]
    | some t =>
        rcases h : f t with msg | resp <;>
          simp [updateProfile, updateProfileBody, actionBegin, h]

/-- C7: `PrivateRoute` is a pure function of the auth state, independent of
the `error` field: while `loading` it renders the pending indicator and makes
no allow/deny decision; once settled it renders the protected outlet exactly
when `user != null` and otherwise the redirect to `/login`. -/
theorem C7_PrivateRoute_decision (st : AuthState) (e : Option String) :
    PrivateRoute { st with error := e } = PrivateRoute st
    ∧ (st.loading = true → PrivateRoute st = .pending)
    ∧ (st.loading = false → st.user = none → PrivateRoute st = .redirectToLogin)
    ∧ (st.loading = false → (PrivateRoute st = .outlet ↔ st.user ≠ none)) := by
  rcases st with ⟨u, se, l, er⟩
  refine ⟨rfl, ?_, ?_, ?_⟩
  · intro h; subst h; simp [PrivateRoute]
  · intro h hu; subst h; subst hu; simp [PrivateRoute]
  · intro h; subst h; cases u <;> simp [PrivateRoute]

/-- C7 witness: the decision evaluated at concrete settled and pending
states. -/
theorem C7_PrivateRoute_decision_witness :
    PrivateRoute { user := none, session := none, loading := true, error := none }
        = .pending
    ∧ PrivateRoute { user := none, session := none, loading := false, error := some "e" }
        = .redirectToLogin
    ∧ PrivateRoute { user := some { id := "u1" }, session := none, loading := false, error := some "e" }
        = .outlet := by
  refine ⟨?_, ?_, ?_⟩
  · exact (C7_PrivateRoute_decision
      { user := none, session := none, loading := true, error := none } none).2.1 rfl
  · exact (C7_PrivateRoute_decision
      { user := none, session := none, loading := false, error := some "e" } none).2.2.1 rfl rfl
  · exact ((C7_PrivateRoute_decision
      { user := some { id := "u1" }, session := none, loading := false, error := some "e" }
        none).2.2.2 rfl).2 (by simp)

/-- C8: with no persisted token, `updatePassword` fails immediately with the
`'Not authenticated'` condition recorded in `error` and re-thrown, makes no
gateway call (the result does not depend on the gateway), and leaves `user`,
`session` and the token slot unchanged. -/
theorem C8_updatePassword_unauthenticated (f g : String → SvcResult)
    (s : ClientState) (h : s.token = none) :
    (updatePassword f s).2 = .error "Not authenticated"
    ∧ (updatePassword f s).1.auth.error = some "Not authenticated"
    ∧ (updatePassword f s).1.auth.loading = false
    ∧ (updatePassword f s).1.auth.user = s.auth.user
    ∧ (updatePassword f s).1.auth.session = s.auth.session
    ∧ (updatePassword f s).1.token = s.token
    ∧ updatePassword f s = updatePassword g s := by
  rcases s with ⟨⟨u, se, l, e⟩, tk⟩
  cases h
  simp [updatePassword, updatePasswordBody, actionBegin]

/-- C8 witness: evaluated at the settled anonymous state with no token and a
gateway that would succeed if it were ever consulted. -/
theorem C8_updatePassword_unauthenticated_witness :
    (updatePassword (fun _ => .ok verifyOk)
        { auth := { user := none, session := none, loading := false, error := none },
          token := none }).2 = .error "Not authenticated" :=
  (C8_updatePassword_unauthenticated (fun _ => .ok verifyOk) (fun _ => .ok failResp)
    { auth := { user := none, session := none, loading := false, error := none },
      token := none } rfl).1

/-- C9: signing in twice with the same successful gateway outcome leaves the
final client state (auth state and persisted token) identical to signing in
once: the second call is a no-op on the final state. -/
theorem C9_signIn_idempotent (resp : RespBody) (s : ClientState)
    (hs : resp.success = true) :
    (signIn (.ok resp) (signIn (.ok resp) s).1).1 = (signIn (.ok resp) s).1 := by
  rcases s with ⟨⟨u, se, l, e⟩, tk⟩
  simp only [signIn, signInBody, actionBegin, hs, if_pos]
  rcases resp with ⟨su, ru, rs, re⟩
  rcases rs with _ | ⟨⟨at_, pl⟩⟩
  · rfl
  · rcases at_ with _ | t
    · rfl
    · by_cases ht : t = "" <;> simp [storeSessionToken, ht]

/-- C9 witness: the double sign-in evaluated at the concrete successful
response `signInOk` from the anonymous initial state. -/
theorem C9_signIn_idempotent_witness :
    (signIn (.ok signInOk)
        (signIn (.ok signInOk) { auth := initialAuth, token := none }).1).1
      = (signIn (.ok signInOk) { auth := initialAuth, token := none }).1 :=
  C9_signIn_idempotent signInOk { auth := initialAuth, token := none } rfl

/-- C1 counterexample: the claim that every verify failure ends with the
error field set is false as stated — when `verifySession` resolves with
`success: false` (environment `envFail`, token `"tok-1"`), the cleanup branch
records no error and the final error field is `none`. -/
theorem C1_counterexample :
    ¬ (∀ (env : BootEnv) (tok : String),
        ((∃ msg, env.verify tok = .error msg) ∨
          (∃ resp, env.verify tok = .ok resp ∧ resp.success = false)) →
        (checkSession env { auth := initialAuth, token := some tok }).auth.user = none ∧
        (checkSession env { auth := initialAuth, token := some tok }).auth.session = none ∧
        (checkSession env { auth := initialAuth, token := some tok }).token = none ∧
        (checkSession env { auth := initialAuth, token := some tok }).auth.loading = false ∧
        (checkSession env { auth := initialAuth, token := some tok }).auth.error ≠ none) := by
  intro h
  have hc := h envFail "tok-1" (Or.inr ⟨failResp, rfl, rfl⟩)
  exact hc.2.2.2.2 rfl

/-- C1 (amended): bootstrap with a persisted token whose verification fails
ends with `user` and `session` null, the token cleared and `loading` false;
the error field is set (to the thrown message) only when `verifySession`
throws — when it merely resolves with `success: false`, the error field is
left unchanged (`none` at bootstrap). -/
theorem C1_amended (env : BootEnv) (tok : String)
    (hfail : (∃ msg, env.verify tok = .error msg) ∨
      (∃ resp, env.verify tok = .ok resp ∧ resp.success = false)) :
    (checkSession env { auth := initialAuth, token := some tok }).auth.user = none ∧
    (checkSession env { auth := initialAuth, token := some tok }).auth.session = none ∧
    (checkSession env { auth := initialAuth, token := some tok }).token = none ∧
    (checkSession env { auth := initialAuth, token := some tok }).auth.loading = false ∧
    (∀ msg, env.verify tok = .error msg →
      (checkSession env { auth := initialAuth, token := some tok }).auth.error = some msg) ∧
    (∀ resp, env.verify tok = .ok resp →
      (checkSession env { auth := initialAuth, token := some tok }).auth.error = none) := by
  rcases hfail with ⟨msg, hv⟩ | ⟨resp, hv, hs⟩
  · simp [checkSession, initialAuth, hv]
  · simp [checkSession, initialAuth, hv, hs]

/-- C1 witness: the amended claim evaluated at `envFail` and token
`"tok-1"`. -/
theorem C1_amended_witness :
    (checkSession envFail { auth := initialAuth, token := some "tok-1" }).token = none ∧
    (checkSession envFail { auth := initialAuth, token := some "tok-1" }).auth.error = none :=
  ⟨(C1_amended envFail "tok-1" (Or.inr ⟨failResp, rfl, rfl⟩)).2.2.1,
   (C1_amended envFail "tok-1" (Or.inr ⟨failResp, rfl, rfl⟩)).2.2.2.2.2 failResp rfl⟩

/-- C2 counterexample: the claimed degraded state is false as stated — in
environment `envDegraded` (verify succeeds, `getCurrentUser` resolves with
`success: false`) the error field is never set, so "`error` set" fails; and
when `getCurrentUser` throws instead, the token is purged, so "token
retained" fails. -/
theorem C2_counterexample :
    ¬ (∀ (env : BootEnv) (tok : String) (resp : RespBody),
        env.verify tok = .ok resp → resp.success = true →
        ((∃ msg, env.getUser tok = .error msg) ∨
          (∃ uresp, env.getUser tok = .ok uresp ∧ uresp.success = false)) →
        (checkSession env { auth := initialAuth, token := some tok }).auth.session = resp.session ∧
        (checkSession env { auth := initialAuth, token := some tok }).auth.user = none ∧
        (checkSession env { auth := initialAuth, token := some tok }).auth.error ≠ none ∧
        (checkSession env { auth := initialAuth, token := some tok }).auth.loading = false ∧
        (checkSession env { auth := initialAuth, token := some tok }).token = some tok) := by
  intro h
  have hc := h envDegraded "tok-1" verifyOk rfl rfl (Or.inr ⟨failResp, rfl, rfl⟩)
  exact hc.2.2.1 rfl

/-- C2 (amended): when `verifySession` succeeds and `getCurrentUser` resolves
with `success: false`, bootstrap ends in the degraded state — `session` set
from the verify result, `user` null, `loading` false, token retained — but
with the error field left unchanged (`none`), not set. When `getCurrentUser`
throws instead, the catch performs the full cleanup: token purged, `user` and
`session` null, error set to the thrown message. -/
theorem C2_amended (env : BootEnv) (tok : String) (resp : RespBody)
    (hv : env.verify tok = .ok resp) (hs : resp.success = true) :
    (∀ uresp, env.getUser tok = .ok uresp → uresp.success = false →
      checkSession env { auth := initialAuth, token := some tok }
        = ({ auth := { user := none, session := resp.session, loading := false, error := none },
             token := some tok } : ClientState))
    ∧ (∀ msg, env.getUser tok = .error msg →
      checkSession env { auth := initialAuth, token := some tok }
        = ({ auth := { user := none, session := none, loading := false, error := some msg },
             token := none } : ClientState)) := by
  constructor
  · intro uresp hu hus
    simp [checkSession, initialAuth, hv, hs, hu, hus]
  · intro msg hu
    simp [checkSession, initialAuth, hv, hs, hu]

/-- C2 witness: the amended degraded outcome evaluated at `envDegraded` and
token `"tok-1"`. -/
theorem C2_amended_witness :
    checkSession envDegraded { auth := initialAuth, token := some "tok-1" }
      = ({ auth := { user := none, session := some sess1, loading := false, error := none },
           token := some "tok-1" } : ClientState) :=
  (C2_amended envDegraded "tok-1" verifyOk rfl rfl).1 failResp rfl rfl

/-- C6 counterexample: the claim that a backend-reported failure never causes
the operation to throw is false as stated — the non-2xx response `badHttp`,
whose JSON body reports `success: false` with an error message, makes
`handleResponse` throw instead of returning the body. -/
theorem C6_counterexample :
    ¬ (∀ (r : HttpResponse) (b : RespBody), r.jsonBody = .ok b → b.success = false →
        authServiceCall (.ok r) = .ok b) := by
  intro h
  have hc := h badHttp
    { success := false, user := none, session := none, error := some "Invalid login credentials" }
    rfl rfl
  simp [authServiceCall, handleResponse, badHttp, jsOr] at hc

/-- C6 (amended): a 2xx response is returned to the caller as-is without
throwing, so a backend-reported failure delivered with a 2xx status surfaces
as `success: false`; a non-2xx response makes the operation throw an error
whose message is the body's `error` field when truthy, else the status text;
a transport rejection is re-thrown unchanged. -/
theorem C6_amended (r : HttpResponse) (b : RespBody) (h : r.jsonBody = .ok b) :
    (r.ok = true → authServiceCall (.ok r) = .ok b)
    ∧ (r.ok = false → authServiceCall (.ok r) = .error (jsOr b.error r.statusText))
    ∧ (∀ e, authServiceCall (.error e) = .error e) := by
  rcases r with ⟨ok, stx, jb⟩
  cases h
  refine ⟨?_, ?_, fun e => rfl⟩
  · intro hok; subst hok; simp [authServiceCall, handleResponse]
  · intro hok; subst hok; simp [authServiceCall, handleResponse]

/-- C6 witness: the amended behavior evaluated at the concrete non-2xx
response `badHttp`. -/
theorem C6_amended_witness :
    authServiceCall (.ok badHttp) = .error "Invalid login credentials" :=
  (C6_amended badHttp
    { success := false, user := none, session := none, error := some "Invalid login credentials" }
    rfl).2.1 rfl

/-- C10 counterexample: the claim that `{success: true}` is returned only
when no token is persisted or the remote call succeeds is false as stated —
from `staleTokState` (token present) with a remote call that resolves with
`success: false`, `signOut` still returns `{success: true}`. -/
theorem C10_counterexample :
    ¬ (∀ (f : String → SvcResult) (s : ClientState),
        (signOut f s).2 = .ok successTrueBody →
        (s.token = none ∨
          ∃ tok resp, s.token = some tok ∧ f tok = .ok resp ∧ resp.success = true)) := by
  intro h
  have hc := h (fun _ => .ok failResp) staleTokState rfl
  rcases hc with hnone | ⟨tok, resp, htok, hf, hsucc⟩
  · simp [staleTokState] at hnone
  · obtain rfl : failResp = resp := by simpa using hf
    simp [failResp] at hsucc

/-- C10 (amended): when the remote sign-out call throws, `signOut` performs
the full local cleanup — token cleared, `user` and `session` null, error set
to the failure message — and re-raises that error; it returns
`{success: true}` whenever no token is persisted or the remote call resolves
without throwing, even when the resolved body reports `success: false`. -/
theorem C10_amended (f : String → SvcResult) (s : ClientState) :
    (∀ tok msg, s.token = some tok → f tok = .error msg →
      signOut f s
        = (({ auth := { user := none, session := none, loading := false, error := some msg },
              token := none } : ClientState), (.error msg : SvcResult)))
    ∧ (s.token = none → (signOut f s).2 = .ok successTrueBody)
    ∧ (∀ tok resp, s.token = some tok → f tok = .ok resp →
        (signOut f s).2 = .ok successTrueBody) := by
  refine ⟨?_, ?_, ?_⟩
  · intro tok msg htok hf
    rcases s with ⟨⟨u, se, l, e⟩, tk⟩
    cases htok
    simp [signOut, signOutBody, actionBegin, hf]
  · intro htok
    rcases s with ⟨⟨u, se, l, e⟩, tk⟩
    cases htok
    simp [signOut, signOutBody, actionBegin]
  · intro tok resp htok hf
    rcases s with ⟨⟨u, se, l, e⟩, tk⟩
    cases htok
    simp [signOut, signOutBody, actionBegin, hf]

/-- C10 witness: the amended behavior evaluated at `staleTokState`, once with
a throwing remote call and once with a remote call resolving with
`success: false`. -/
theorem C10_amended_witness :
    signOut (fun _ => .error "network down") staleTokState
      = (({ auth := { user := none, session := none, loading := false, error := some "network down" },
            token := none } : ClientState), (.error "network down" : SvcResult))
    ∧ (signOut (fun _ => .ok failResp) staleTokState).2 = .ok successTrueBody :=
  ⟨(C10_amended (fun _ => .error "network down") staleTokState).1 "t" "network down" rfl rfl,
   (C10_amended (fun _ => .ok failResp) staleTokState).2.2 "t" failResp rfl rfl⟩

/-- The state reached by bootstrapping with no token and then signing in
with a successful response that carries no session: the user is set but no
token is persisted. -/
def badSignInState : ClientState :=
  (signIn (.ok signInNoSess)
    (checkSession envFail { auth := initialAuth, token := none })).1

/-- The state reached by bootstrapping with no token and then signing in
with the token-bearing successful response `signInOk`. -/
def goodSignInState : ClientState :=
  (signIn (.ok signInOk)
    (checkSession envFail { auth := initialAuth, token := none })).1

/-- Bootstrap establishes the user-implies-token invariant: the user is set
only on the verify-and-fetch success path, which retains the persisted
token. -/
theorem checkSession_user_token (env : BootEnv) (tok : Option String) :
    (checkSession env { auth := initialAuth, token := tok }).auth.user ≠ none →
    (checkSession env { auth := initialAuth, token := tok }).token ≠ none := by
  cases tok with
  | none => intro hu; exact absurd rfl hu
  | some t =>
      rcases hv : env.verify t with msg | resp
      · intro hu; simp [checkSession, initialAuth, hv] at hu
      · cases hs : resp.success with
        | false => intro hu; simp [checkSession, initialAuth, hv, hs] at hu
        | true =>
            rcases hu' : env.getUser t with msg | uresp
            · intro hu; simp [checkSession, initialAuth, hv, hs, hu'] at hu
            · intro _
              cases hus : uresp.success <;>
                simp [checkSession, initialAuth, hv, hs, hu', hus]

/-- Each public action preserves the user-implies-token invariant, provided
successful sign-up/sign-in outcomes are token-bearing. -/
theorem goodStep_user_token {s t : ClientState} (hst : GoodStep s t)
    (ih : s.auth.user ≠ none → s.token ≠ none) :
    t.auth.user ≠ none → t.token ≠ none := by
  cases hst with
  | signUpStep o s h =>
      rcases o with msg | resp
      · simpa [signUp, signUpBody, actionBegin] using ih
      · cases hsucc : resp.success with
        | false => simpa [signUp, signUpBody, actionBegin, hsucc] using ih
        | true =>
            intro _
            obtain ⟨sess, tk, hsess, htk, hne⟩ := h resp rfl hsucc
            simp [signUp, signUpBody, actionBegin, hsucc, storeSessionToken, hsess,
              htk, hne]
  | signInStep o s h =>
      rcases o with msg | resp
      · simpa [signIn, signInBody, actionBegin] using ih
      · cases hsucc : resp.success with
        | false => simpa [signIn, signInBody, actionBegin, hsucc] using ih
        | true =>
            intro _
            obtain ⟨sess, tk, hsess, htk, hne⟩ := h resp rfl hsucc
            simp [signIn, signInBody, actionBegin, hsucc, storeSessionToken, hsess,
              htk, hne]
  | signOutStep f s =>
      intro hu
      exfalso
      apply hu
      rcases s with ⟨⟨u, se, l, e⟩, tk⟩
      cases tk with
      | none => simp [signOut, signOutBody, actionBegin]
      | some tkn =>
          rcases hf : f tkn with msg | resp <;>
            simp [signOut, signOutBody, actionBegin, hf]
  | resetPasswordStep o s =>
      rcases o with msg | resp <;>
        simpa [resetPassword, resetPasswordBody, actionBegin] using ih
  | updatePasswordStep f s =>
      rcases s with ⟨⟨u, se, l, e⟩, tk⟩
      cases tk with
      | none => simpa [updatePassword, updatePasswordBody, actionBegin] using ih
      | some tkn =>
          rcases hf : f tkn with msg | resp <;>
            simp [updatePassword, updatePasswordBody, actionBegin, hf]
  | updateProfileStep f s =>
      rcases s with ⟨⟨u, se, l, e⟩, tk⟩
      cases tk with
      | none => simpa [updateProfile, updateProfileBody, actionBegin] using ih
      | some tkn =>
          rcases hf : f tkn with msg | resp
          · simp [updateProfile, updateProfileBody, actionBegin, hf]
          · cases hsucc : resp.success <;>
              simp [updateProfile, updateProfileBody, actionBegin, hf, hsucc]

/-- C3 counterexample: the invariant "user set implies a token is persisted"
is false as stated — bootstrapping with no token and then signing in with a
successful response that carries no session (`signInNoSess`) reaches a state
with `user` set and no persisted token, because `signIn` stores the token
only when `response.session?.access_token` is truthy. -/
theorem C3_counterexample :
    ¬ (∀ c : ClientState, Reachable c → c.auth.user ≠ none → c.token ≠ none) := by
  intro h
  have hr : Reachable badSignInState :=
    Reachable.step (Reachable.boot envFail none)
      (Step.signInStep (.ok signInNoSess)
        (checkSession envFail { auth := initialAuth, token := none }))
  have hv := h badSignInState hr
    (by simp [badSignInState, signIn, signInBody, actionBegin, checkSession,
          envFail, initialAuth, signInNoSess])
  exact hv
    (by simp [badSignInState, signIn, signInBody, actionBegin, checkSession,
          envFail, initialAuth, signInNoSess, storeSessionToken])

/-- C3 (amended): in every state reachable through bootstrap and the public
actions, `user != null` implies a token is persisted, provided every
successful sign-up/sign-in response carries a session with a truthy
(non-empty) `access_token`; a successful response without one sets the user
while persisting nothing. -/
theorem C3_amended (c : ClientState) (h : GoodReachable c) :
    c.auth.user ≠ none → c.token ≠ none := by
  induction h with
  | boot env tok => exact checkSession_user_token env tok
  | step hpre hstep ih => exact goodStep_user_token hstep ih

/-- C3 witness: after bootstrapping with no token and signing in with the
token-bearing response `signInOk`, the user is set and the amended invariant
yields a persisted token. -/
theorem C3_amended_witness : goodSignInState.token ≠ none :=
  C3_amended goodSignInState
    (GoodReachable.step (GoodReachable.boot envFail none)
      (GoodStep.signInStep (.ok signInOk)
        (checkSession envFail { auth := initialAuth, token := none })
        (by
          intro resp hr hs
          cases hr
          exact ⟨sess1, "tok-1", rfl, rfl, by decide⟩)))
    (by simp [goodSignInState, signIn, signInBody, actionBegin, checkSession,
          envFail, initialAuth, signInOk])

end SurveyStaff
